import Mathlib

/-!
Verification development for the `cantordust/dlog` repository: a dynamically
resizable thread pool (`include/threadpool.hpp`, mutex/condition-variable
revision, here `TP1`; `unnamed/part_002`, atomic/spinlock revision `0.2.6`,
here `TP2`) and the `dlog` ordered multi-threaded logging layer
(`include/dlog.hpp` and the `unnamed/part_003` revision that supports
asynchronous fragments).

The embedding is sequential: each public operation of the pool is modelled as
a function on an explicit state record, transliterated from the body of the
corresponding C++ member function.  Concurrency-sensitive facts (what a
condition-variable wait's predicate guarantees on return, the order of events
inside `resize`) are modelled by the predicate itself, respectively by an
explicit event list.
-/

set_option autoImplicit false

namespace Dlog

/-! ### State of the mutex-based pool (`include/threadpool.hpp`) -/

/-- State of the `include/threadpool.hpp` pool: the `Flags` struct
(`halt`, `prune`, `pause`), the `Tasks` struct (`received`, `assigned`,
`completed`, `aborted` counters plus the task queue, modelled as a list of
task identifiers), and the `Workers` struct (`count`, `target_count`). -/
structure TP1State where
  halt : Bool
  prune : Bool
  pause : Bool
  queue : List Nat
  received : Nat
  assigned : Nat
  completed : Nat
  aborted : Nat
  workerCount : Nat
  targetCount : Nat
  deriving DecidableEq, Repr

/-- Result handle returned by `enqueue` (the `std::future` obtained from the
`packaged_task`).  `pushed` records whether the wrapped task was placed on the
queue; a task only ever executes by being popped from the queue, so
`pushed = false` means the computation is never invoked and the handle
resolves to a never-run (cancelled) result. -/
structure Handle where
  pushed : Bool
  deriving DecidableEq, Repr

/-- `ThreadPool::enqueue` (threadpool.hpp, lines 238–272): build the task and
its future, then under the lock: if `!flags.halt`, increment `received`, push
the wrapper onto the queue and notify one worker; otherwise do nothing.  The
future is returned in either case. -/
def TP1enqueue (s : TP1State) (t : Nat) : TP1State × Handle :=
  if s.halt then (s, ⟨false⟩)
  else ({ s with received := s.received + 1, queue := s.queue ++ [t] }, ⟨true⟩)

/-- The drain loop inside `ThreadPool::stop` (threadpool.hpp, lines 310–316):
`while (!tasks.queue.empty()) { tasks.queue.pop(); ++tasks.aborted; }`.
Returns the emptied queue together with the final `aborted` counter. -/
def drainCount : List Nat → Nat → List Nat × Nat
  | [], ab => ([], ab)
  | _ :: ts, ab => drainCount ts (ab + 1)

/-- `ThreadPool::stop` (threadpool.hpp, lines 296–319): if `flags.halt` is
already set, return immediately; otherwise set `halt`, run the drain loop
(each discarded task increments `aborted`) and notify all workers. -/
def TP1stop (s : TP1State) : TP1State :=
  if s.halt then s
  else
    let d := drainCount s.queue s.aborted
    { s with halt := true, queue := d.1, aborted := d.2 }

/-- Return condition of `ThreadPool::wait` (threadpool.hpp, lines 321–333):
the call returns immediately when `flags.halt` is set, and otherwise blocks
on `tasks.finished` until `tasks.queue.empty() && tasks.assigned == 0`; a
predicated condition-variable wait returns only in a state satisfying its
predicate.  `TP1waitReturns s` states that a `wait()` call can return while
the pool is in state `s`. -/
def TP1waitReturns (s : TP1State) : Bool :=
  s.halt || (s.queue.isEmpty && s.assigned == 0)

/-- Events observable inside a call to `resize`: a worker thread being
spawned, and a spawned worker's readiness being observed by `resize` before
it returns. -/
inductive SpawnEvent where
  | spawned
  | ready
  deriving DecidableEq, Repr

/-- `ThreadPool::resize` (threadpool.hpp, lines 274–294): no-op when halted;
otherwise set `target_count`, recompute `prune`, and if
`count < target_count` call `add_worker()` (spawn a detached thread)
`target_count - count` times.  `add_worker` returns as soon as the thread is
spawned, and the new thread cannot even start its loop until `resize`
releases the mutex, so `workers.count` is unchanged when `resize` returns and
no readiness event occurs before return.  Returns the new state together with
the list of events that happen before `resize` returns. -/
def TP1resize (s : TP1State) (n : Nat) : TP1State × List SpawnEvent :=
  if s.halt then (s, [])
  else
    ({ s with targetCount := n, prune := decide (s.workerCount > n) },
     List.replicate (n - s.workerCount) .spawned)

/-- Exit condition of the worker loop (threadpool.hpp, lines 136–140): a
worker breaks out of its loop exactly when
`(flags.halt && tasks.queue.empty()) || workers.count > workers.target_count`. -/
def TP1workerExits (s : TP1State) : Bool :=
  (s.halt && s.queue.isEmpty) || decide (s.workerCount > s.targetCount)

/-- A submitted computation: it either produces a value or fails.  In the
source every task is wrapped in a `std::packaged_task`, whose invocation
stores the outcome (value or exception) into the future's shared state and
itself returns normally, so a failure never propagates into the worker
loop. -/
def TaskFn : Type := Unit → Except String Nat

/-- Invoking the `packaged_task` wrapper (`function()` in the worker loop,
threadpool.hpp line 155): the outcome — including a raised error — is
captured into the task's result handle and the call returns to the worker. -/
def packagedInvoke (f : TaskFn) : Except String Nat := f ()

/-- One service iteration of the worker loop (threadpool.hpp, lines
142–163) applied to the task function `f` of the queue's head: pop the front
task, increment `assigned`, invoke the packaged task (capturing its outcome),
then decrement `assigned` and increment `completed`.  Returns the new pool
state and the outcome stored into the task's handle (`none` when the queue
was empty and nothing ran). -/
def TP1workerServeOne (s : TP1State) (f : TaskFn) :
    TP1State × Option (Except String Nat) :=
  match s.queue with
  | [] => (s, none)
  | _ :: rest =>
      let afterPop := { s with queue := rest, assigned := s.assigned + 1 }
      let result := packagedInvoke f
      ({ afterPop with
          assigned := afterPop.assigned - 1,
          completed := afterPop.completed + 1 }, some result)

/-! ### The thread-safe queue `Storage::tsq` (`unnamed/part_002`, lines 112–173) -/

/-- `tsq::push` / `emplace`: append at the back (`queue.push_back`). -/
def tsqPush (q : List Nat) (t : Nat) : List Nat := q ++ [t]

/-- `tsq::pop`: if the queue is empty report not-available (`false`),
otherwise move out the front element and `pop_front` it. -/
def tsqPop : List Nat → Option (Nat × List Nat)
  | [] => none
  | t :: ts => some (t, ts)

/-- `tsq::clear`: discard every entry (`queue.clear()`). -/
def tsqClear (_q : List Nat) : List Nat := []

/-- Repeatedly call `tsqPop` (with fuel) and collect the returned entries in
order. -/
def tsqPopAll : Nat → List Nat → List Nat
  | 0, _ => []
  | fuel + 1, q =>
      match tsqPop q with
      | none => []
      | some (t, rest) => t :: tsqPopAll fuel rest

/-! ### State of the atomic/spinlock pool (`unnamed/part_002`, v0.2.6, `TP2`) -/

/-- State of the `part_002` pool: the `Flags` struct (`stop`, `prune`,
`pause`), the `Stats` struct (`received`, `enqueued`, `assigned`,
`completed`, `aborted`), the task queue (a `Storage::tsq`, modelled as a list
of task identifiers) and the worker counts. -/
structure TP2State where
  stop : Bool
  prune : Bool
  pause : Bool
  queue : List Nat
  received : Nat
  enqueued : Nat
  assigned : Nat
  completed : Nat
  aborted : Nat
  workerCount : Nat
  targetCount : Nat
  deriving DecidableEq, Repr

/-- `ThreadPool::enqueue` (part_002, lines 294–326): build the task and its
future; if `flags.stop` is set, return the future at once (nothing pushed,
no counter touched); otherwise push the wrapper and increment `received` and
`enqueued`. -/
def TP2enqueue (s : TP2State) (t : Nat) : TP2State × Handle :=
  if s.stop then (s, ⟨false⟩)
  else ({ s with
            queue := tsqPush s.queue t,
            received := s.received + 1,
            enqueued := s.enqueued + 1 }, ⟨true⟩)

/-- `ThreadPool::stop` (part_002, lines 344–362): if already stopping, return
unchanged; otherwise set `stop`, add `enqueued` to `aborted`, zero
`enqueued`, clear the queue and wake all `sync` waiters. -/
def TP2stop (s : TP2State) : TP2State :=
  if s.stop then s
  else { s with
          stop := true,
          aborted := s.aborted + s.enqueued,
          enqueued := 0,
          queue := tsqClear s.queue }

/-- Return condition of `ThreadPool::sync` (part_002, lines 364–374): the
call notifies the workers and then blocks on `semaphores.sync` until
`!stats.enqueued`; the predicate mentions neither `flags.stop` nor
`stats.assigned`.  `TP2syncReturns s` states that a `sync()` call can return
while the pool is in state `s`. -/
def TP2syncReturns (s : TP2State) : Bool := s.enqueued == 0

/-- The body of `ThreadPool::resize`'s growth loop (part_002, lines
337–341): while `count < target`, `add_worker()` spawns a thread that
increments `workers.count` and fulfils a readiness promise before `resize`'s
spin on `workers.busy[id]` ends, so each iteration contributes a `spawned`
event immediately followed by a `ready` event. -/
def spawnReadySeq : Nat → List SpawnEvent
  | 0 => []
  | k + 1 => .spawned :: .ready :: spawnReadySeq k

/-- `ThreadPool::resize` (part_002, lines 328–342, with `add_worker`, lines
419–498): no-op when stopping; otherwise store `target_count`, recompute
`prune`, then loop `add_worker` until `count` reaches `target_count`, waiting
on each worker's readiness promise and busy flag before the next iteration.
Returns the new state together with the events preceding `resize`'s
return. -/
def TP2resize (s : TP2State) (n : Nat) : TP2State × List SpawnEvent :=
  if s.stop then (s, [])
  else
    ({ s with
        targetCount := n,
        prune := decide (s.workerCount > n),
        workerCount := s.workerCount + (n - s.workerCount) },
     spawnReadySeq (n - s.workerCount))

/-! ### Sequential transition system over the pool statistics

The claims about the lifecycle statistics quantify over every sequence of
submit / assignment / completion / stop steps.  Each constructor below is one
critical section of `part_002` (`enqueue`, the pop/assign prologue and the
completion epilogue of the worker loop at lines 441–483, `stop`, and the
`pause`/`resume` toggles). -/
inductive TPStep : TP2State → TP2State → Prop where
  | submit (s : TP2State) (t : Nat) (h : s.stop = false) :
      TPStep s { s with
                  queue := tsqPush s.queue t,
                  received := s.received + 1,
                  enqueued := s.enqueued + 1 }
  | submitRejected (s : TP2State) (h : s.stop = true) : TPStep s s
  | assign (s : TP2State) (t : Nat) (rest : List Nat)
      (hq : s.queue = t :: rest) :
      TPStep s { s with
                  queue := rest,
                  assigned := s.assigned + 1,
                  enqueued := s.enqueued - 1 }
  | finish (s : TP2State) (h : 0 < s.assigned) :
      TPStep s { s with
                  assigned := s.assigned - 1,
                  completed := s.completed + 1 }
  | stopCall (s : TP2State) : TPStep s (TP2stop s)
  | pauseCall (s : TP2State) : TPStep s { s with pause := true }
  | resumeCall (s : TP2State) : TPStep s { s with pause := false }

/-- The freshly constructed pool: no workers yet, all counters zero, all
flags clear. -/
def tpInit : TP2State :=
  { stop := false, prune := false, pause := false, queue := [],
    received := 0, enqueued := 0, assigned := 0, completed := 0,
    aborted := 0, workerCount := 0, targetCount := 0 }

/-- States reachable from the freshly constructed pool by any interleaving of
the steps above. -/
inductive Reach : TP2State → Prop where
  | init : Reach tpInit
  | step {s s' : TP2State} : Reach s → TPStep s s' → Reach s'

/-- Outcome of the integrity check in `ThreadPool::~ThreadPool` (part_002,
lines 284–291). -/
inductive TeardownOutcome where
  | ok
  | thrown
  | logged
  | silent
  deriving DecidableEq, Repr

/-- The teardown integrity check of `ThreadPool::~ThreadPool` (part_002,
lines 284–291): when `received != assigned + completed + aborted`, the
destructor throws under `TP_THROW`, otherwise executes `LOG(...)`, which
expands to a print only under `TP_DEBUG` and to nothing at all otherwise.
When the counters reconcile, the check passes. -/
def teardownCheck (tpThrow tpDebug : Bool) (r a c ab : Nat) : TeardownOutcome :=
  if r ≠ a + c + ab then
    if tpThrow then .thrown
    else if tpDebug then .logged
    else .silent
  else .ok

/-! ### The `dlog` logging layer

`include/dlog.hpp` (v0.2.1, variadic-constructor revision, mirrored in
`part_004` v0.2.4) collects all fragments in the constructor; the
`unnamed/part_003` revision builds the record as a FIFO queue of buffer
steps and supports asynchronous (`std::future`) fragments.  Only the latter
can form a record containing an async fragment.  The names `pre`, `mid` and
`suf` stand for the record's prefix, infix and suffix strings. -/

/-- The filter computed in every `dlog` constructor:
`out = (log_level == 0 || log_level >= threshold)`, where the threshold is
the process-wide (static/default) log level.  A record writes anything at all
only when `out` is `true`. -/
def dlogOut (lvl thr : Nat) : Bool := lvl == 0 || decide (thr ≤ lvl)

/-- `dlog::gobble` (include/dlog.hpp, lines 166–171): the first argument is
appended bare, every further argument is preceded by the infix string. -/
def dlogGobble (mid : String) : List String → String
  | [] => ""
  | f :: rest => f ++ rest.foldl (fun acc g => acc ++ mid ++ g) ""

/-- Bytes accumulated by one `include/dlog.hpp` record: the constructor
(lines 81–95) appends the prefix and gobbles the fragments when `out` holds;
the destructor (lines 97–104) appends the suffix; nothing is appended when
`out` is false. -/
def dlogRecordBytes (lvl thr : Nat) (pre mid suf : String)
    (frags : List String) : String :=
  if dlogOut lvl thr then pre ++ dlogGobble mid frags ++ suf else ""

/-- Writes emitted to the destination stream by one `include/dlog.hpp`
record: the destructor calls `flush` only when `out` holds, and `flush`
(lines 173–192) enqueues a single `*os << content` only when the content is
non-empty. -/
def dlogFlushWrites (lvl thr : Nat) (pre mid suf : String)
    (frags : List String) : List String :=
  if dlogOut lvl thr then
    let content := dlogRecordBytes lvl thr pre mid suf frags
    if 0 < content.length then [content] else []
  else []

/-- A fragment appended to a `part_003` record: either a ready value
(`operator<<(const T&)`, stringified immediately) or an asynchronous handle
(`operator<<(std::future<T>&)`), carrying the value the future eventually
resolves to; the step created for it calls `f->get()` inside the
pool-managed chain, so the resolved value — not the resolution time —
determines the bytes. -/
inductive Frag where
  | lit (s : String)
  | fromAsync (s : String)
  deriving DecidableEq, Repr

/-- The buffer step a `part_003` fragment enqueues: both `operator<<`
overloads append `*inf` followed by the (resolved) value to the shared
buffer. -/
def fragStep (mid : String) : Frag → String → String
  | .lit v, b => b ++ mid ++ v
  | .fromAsync v, b => b ++ mid ++ v

/-- The ordered step queue (`output_queue`) of one `part_003` record: the
constructor (lines 128–149) enqueues a step appending the prefix, each
`operator<<` enqueues its fragment step in call order, and `flush` (lines
156–169) enqueues a final step appending the suffix plus a newline (and
performing the single stream write). -/
def dlog3Steps (pre mid suf : String) (frags : List Frag) :
    List (String → String) :=
  (fun b => b ++ pre) :: frags.map (fragStep mid)
    ++ [fun b => b ++ suf ++ "\n"]

/-- The `Printer` (part_003, lines 68–124) executes a record's step queue
strictly front to back on one pool task. -/
def runSteps (steps : List (String → String)) (b : String) : String :=
  steps.foldl (fun acc f => f acc) b

/-- The byte sequence a `part_003` record hands to its stream. -/
def dlog3Bytes (pre mid suf : String) (frags : List Frag) : String :=
  runSteps (dlog3Steps pre mid suf frags) ""

/-- Writes emitted by one `part_003` record that passes the severity filter:
the final step writes `buf->str()` once, under the stream's output mutex. -/
def dlog3Writes (pre mid suf : String) (frags : List Frag) : List String :=
  [dlog3Bytes pre mid suf frags]

/-! ### Event counting and concrete states used to instantiate the claims -/

/-- Whether a `resize` event is a readiness signal. -/
def isReadyEvent : SpawnEvent → Bool
  | .ready => true
  | .spawned => false

/-- Number of readiness signals observed before `resize` returns. -/
def countReady (evs : List SpawnEvent) : Nat := evs.countP isReadyEvent

/-- Number of worker threads spawned by a `resize` call. -/
def countSpawned (evs : List SpawnEvent) : Nat :=
  evs.countP (fun e => !isReadyEvent e)

/-- A freshly built `threadpool.hpp` pool before any worker is live. -/
def tp1Fresh : TP1State :=
  { halt := false, prune := false, pause := false, queue := [],
    received := 0, assigned := 0, completed := 0, aborted := 0,
    workerCount := 0, targetCount := 0 }

/-- A quiescent `threadpool.hpp` pool: three tasks received and completed,
none queued or assigned. -/
def tp1Quiescent : TP1State :=
  { halt := false, prune := false, pause := false, queue := [],
    received := 3, assigned := 0, completed := 3, aborted := 0,
    workerCount := 2, targetCount := 2 }

/-- A `threadpool.hpp` pool with one queued task and one running task. -/
def tp1Busy : TP1State :=
  { halt := false, prune := false, pause := false, queue := [5],
    received := 2, assigned := 1, completed := 0, aborted := 0,
    workerCount := 1, targetCount := 1 }

/-- A halted `threadpool.hpp` pool that still has a queued and an assigned
task. -/
def tp1Halted : TP1State :=
  { halt := true, prune := false, pause := false, queue := [4],
    received := 2, assigned := 1, completed := 1, aborted := 0,
    workerCount := 1, targetCount := 1 }

/-- The `part_002` pool right after `enqueue` of task `7` on the fresh
pool. -/
def tpAfterSubmit : TP2State :=
  { tpInit with
      queue := tsqPush tpInit.queue 7,
      received := tpInit.received + 1,
      enqueued := tpInit.enqueued + 1 }

/-- The `part_002` pool after a worker has popped task `7` and is executing
it: the queue is empty and `enqueued` is zero, but one task is still
assigned. -/
def tpAssignedOne : TP2State :=
  { tpAfterSubmit with
      queue := [],
      assigned := tpAfterSubmit.assigned + 1,
      enqueued := tpAfterSubmit.enqueued - 1 }

/-- A stopped `part_002` pool. -/
def tp2Stopped : TP2State := { tpInit with stop := true }

/-! ## Helper lemmas -/

/-- The drain loop of `TP1stop` empties the queue and adds exactly its
length to the `aborted` counter. -/
theorem drainCount_eq (q : List Nat) (ab : Nat) :
    drainCount q ab = ([], ab + q.length) := by
  induction q generalizing ab with
  | nil => simp [drainCount]
  | cons t ts ih => simp [drainCount, ih]; omega

/-- Popping a queue of length `n` exactly `n` times returns the pushed
entries, oldest first, each exactly once. -/
theorem tsqPopAll_eq (q : List Nat) : tsqPopAll q.length q = q := by
  induction q with
  | nil => simp [tsqPopAll]
  | cons t ts ih => simp [tsqPopAll, tsqPop, ih]

/-- An already-halted `threadpool.hpp` pool is left unchanged by `stop`. -/
theorem TP1stop_halted (s : TP1State) (h : s.halt = true) : TP1stop s = s := by
  simp [TP1stop, h]

/-- Effect of the first `stop` call on a running `threadpool.hpp` pool. -/
theorem TP1stop_spec (s : TP1State) (h : s.halt = false) :
    TP1stop s = { s with
                    halt := true,
                    queue := [],
                    aborted := s.aborted + s.queue.length } := by
  simp [TP1stop, h, drainCount_eq]

/-- An already-stopped `part_002` pool is left unchanged by `stop`. -/
theorem TP2stop_stopped (s : TP2State) (h : s.stop = true) : TP2stop s = s := by
  simp [TP2stop, h]

/-- Effect of the first `stop` call on a running `part_002` pool. -/
theorem TP2stop_spec (s : TP2State) (h : s.stop = false) :
    TP2stop s = { s with
                    stop := true,
                    aborted := s.aborted + s.enqueued,
                    enqueued := 0,
                    queue := [] } := by
  simp [TP2stop, h, tsqClear]

/-- Conservation of the lifecycle statistics along every reachable state of
the sequential transition system: every received task is accounted for as
queued, assigned, completed or aborted, and the `enqueued` counter tracks
the queue length. -/
theorem reach_inv {s : TP2State} (h : Reach s) :
    s.received = s.enqueued + s.assigned + s.completed + s.aborted ∧
    s.enqueued = s.queue.length := by
  induction h with
  | init => simp [tpInit]
  | step hr hst ih =>
      obtain ⟨ih1, ih2⟩ := ih
      cases hst with
      | submit t h => simp [tsqPush]; omega
      | submitRejected h => exact ⟨ih1, ih2⟩
      | assign t rest hq =>
          rw [hq] at ih2
          simp at ih2 ⊢
          omega
      | finish h => simp; omega
      | stopCall =>
          rename_i sc
          by_cases hs : sc.stop = true
          · rw [TP2stop_stopped sc hs]; exact ⟨ih1, ih2⟩
          · rw [TP2stop_spec sc (by simpa using hs)]; simp; omega
      | pauseCall => exact ⟨ih1, ih2⟩
      | resumeCall => exact ⟨ih1, ih2⟩

/-- `stop` is idempotent on the `threadpool.hpp` pool. -/
theorem TP1stop_idem (s : TP1State) : TP1stop (TP1stop s) = TP1stop s := by
  cases h : s.halt with
  | true => rw [TP1stop_halted s h, TP1stop_halted s h]
  | false => rw [TP1stop_spec s h]; exact TP1stop_halted _ rfl

/-- `stop` is idempotent on the `part_002` pool. -/
theorem TP2stop_idem (s : TP2State) : TP2stop (TP2stop s) = TP2stop s := by
  cases h : s.stop with
  | true => rw [TP2stop_stopped s h, TP2stop_stopped s h]
  | false => rw [TP2stop_spec s h]; exact TP2stop_stopped _ rfl

/-- Event counts of the `part_002` resize loop: each iteration spawns one
worker and observes its readiness. -/
theorem spawnReadySeq_counts (k : Nat) :
    countSpawned (spawnReadySeq k) = k ∧ countReady (spawnReadySeq k) = k := by
  induction k with
  | zero => simp [spawnReadySeq, countSpawned, countReady]
  | succ k ih =>
      obtain ⟨ih1, ih2⟩ := ih
      simp [spawnReadySeq, countSpawned, countReady, List.countP_cons,
        isReadyEvent] at ih1 ih2 ⊢
      omega

/-- Event counts of the `threadpool.hpp` resize loop: only spawns, no
readiness signals. -/
theorem replicate_spawned_counts (k : Nat) :
    countSpawned (List.replicate k SpawnEvent.spawned) = k ∧
    countReady (List.replicate k SpawnEvent.spawned) = 0 := by
  induction k with
  | zero => simp [countSpawned, countReady]
  | succ k ih =>
      obtain ⟨ih1, ih2⟩ := ih
      simp [List.replicate_succ, countSpawned, countReady, List.countP_cons,
        isReadyEvent] at ih1 ih2 ⊢
      omega

/-! ## Claims -/

/-- Claim C9: the task queue is strictly FIFO — `push` appends at the back,
`pop` removes and returns the oldest remaining entry or reports
not-available on the empty queue, a full pop sequence returns the entries in
insertion order each exactly once, the drain loop removes every entry and
yields exactly the number discarded, and `clear` discards everything. -/
theorem tsq_fifo_push_pop_drain (q rest : List Nat) (t ab : Nat) :
    tsqPush q t = q ++ [t] ∧
    tsqPop ([] : List Nat) = none ∧
    tsqPop (t :: rest) = some (t, rest) ∧
    tsqPopAll q.length q = q ∧
    drainCount q ab = ([], ab + q.length) ∧
    tsqClear q = [] :=
  ⟨rfl, rfl, rfl, tsqPopAll_eq q, drainCount_eq q ab, rfl⟩

/-- Claim C10: when the halt flag is set, `wait()` returns immediately,
whatever the queue contents and assigned count are — quiescence is not
waited for after `stop()`. -/
theorem wait_returns_when_halted (s : TP1State) (h : s.halt = true) :
    TP1waitReturns s = true := by
  simp [TP1waitReturns, h]

/-- Witness for C10: a halted pool with a non-empty queue and an assigned
task still satisfies the return condition of `wait()`. -/
theorem wait_returns_when_halted_inst : TP1waitReturns tp1Halted = true :=
  wait_returns_when_halted tp1Halted rfl

/-- Claim C2: a submission made while the pool is stopping is rejected in
both revisions — the pool state (in particular `received` and the queue) is
unchanged, so the wrapped computation can never be invoked, and the caller
receives a handle whose task was never pushed (a never-run/cancelled
result), with no exception at the call site. -/
theorem enqueue_rejected_when_stopping (s1 : TP1State) (s2 : TP2State)
    (t : Nat) (h1 : s1.halt = true) (h2 : s2.stop = true) :
    (TP1enqueue s1 t).1 = s1 ∧
    (TP1enqueue s1 t).2.pushed = false ∧
    (TP2enqueue s2 t).1 = s2 ∧
    (TP2enqueue s2 t).2.pushed = false ∧
    (TP2enqueue s2 t).1.received = s2.received ∧
    (TP2enqueue s2 t).1.queue = s2.queue ∧
    (t ∉ s1.queue → t ∉ (TP1enqueue s1 t).1.queue) := by
  simp [TP1enqueue, TP2enqueue, h1, h2]

/-- Witness for C2: rejection of task `9` on concrete stopped pools. -/
theorem enqueue_rejected_when_stopping_inst :
    (TP1enqueue tp1Halted 9).1 = tp1Halted ∧
    (TP1enqueue tp1Halted 9).2.pushed = false ∧
    (TP2enqueue tp2Stopped 9).1 = tp2Stopped ∧
    (TP2enqueue tp2Stopped 9).2.pushed = false ∧
    (TP2enqueue tp2Stopped 9).1.received = tp2Stopped.received ∧
    (TP2enqueue tp2Stopped 9).1.queue = tp2Stopped.queue ∧
    (9 ∉ tp1Halted.queue → 9 ∉ (TP1enqueue tp1Halted 9).1.queue) :=
  enqueue_rejected_when_stopping tp1Halted tp2Stopped 9 rfl rfl

/-- Claim C4: `stop()` is idempotent and drains exactly, in both revisions.
The first call sets the stopping flag, empties the queue, increments
`aborted` by exactly the number of discarded tasks and zeroes the pending
count, while leaving `received` and `completed` alone; a second call — and
any call on an already-stopped pool — changes nothing.  (For the `part_002`
revision the pending counter equals the queue length, which holds in every
reachable state by `reach_inv`.) -/
theorem stop_idempotent_and_drains (s1 : TP1State) (s2 : TP2State)
    (h1 : s1.halt = false) (h2 : s2.stop = false)
    (hlen : s2.enqueued = s2.queue.length) :
    (TP1stop s1).halt = true ∧
    (TP1stop s1).queue = [] ∧
    (TP1stop s1).aborted = s1.aborted + s1.queue.length ∧
    (TP1stop s1).received = s1.received ∧
    (TP1stop s1).completed = s1.completed ∧
    (TP1stop s1).assigned = s1.assigned ∧
    TP1stop (TP1stop s1) = TP1stop s1 ∧
    (∀ s : TP1State, s.halt = true → TP1stop s = s) ∧
    (TP2stop s2).stop = true ∧
    (TP2stop s2).queue = [] ∧
    (TP2stop s2).enqueued = 0 ∧
    (TP2stop s2).aborted = s2.aborted + s2.queue.length ∧
    (TP2stop s2).received = s2.received ∧
    (TP2stop s2).completed = s2.completed ∧
    TP2stop (TP2stop s2) = TP2stop s2 ∧
    (∀ s : TP2State, s.stop = true → TP2stop s = s) := by
  refine ⟨?_, ?_, ?_, ?_, ?_, ?_, TP1stop_idem s1, TP1stop_halted,
      ?_, ?_, ?_, ?_, ?_, ?_, TP2stop_idem s2, TP2stop_stopped⟩ <;>
    simp [TP1stop_spec s1 h1, TP2stop_spec s2 h2, hlen]

/-- Witness for C4: `stop` on the concrete busy pool `tp1Busy` (one queued
task) and on `tpAfterSubmit` (one enqueued task). -/
theorem stop_idempotent_and_drains_inst :
    (TP1stop tp1Busy).halt = true ∧
    (TP1stop tp1Busy).queue = [] ∧
    (TP1stop tp1Busy).aborted = tp1Busy.aborted + tp1Busy.queue.length ∧
    (TP1stop tp1Busy).received = tp1Busy.received ∧
    (TP1stop tp1Busy).completed = tp1Busy.completed ∧
    (TP1stop tp1Busy).assigned = tp1Busy.assigned ∧
    TP1stop (TP1stop tp1Busy) = TP1stop tp1Busy ∧
    (∀ s : TP1State, s.halt = true → TP1stop s = s) ∧
    (TP2stop tpAfterSubmit).stop = true ∧
    (TP2stop tpAfterSubmit).queue = [] ∧
    (TP2stop tpAfterSubmit).enqueued = 0 ∧
    (TP2stop tpAfterSubmit).aborted
      = tpAfterSubmit.aborted + tpAfterSubmit.queue.length ∧
    (TP2stop tpAfterSubmit).received = tpAfterSubmit.received ∧
    (TP2stop tpAfterSubmit).completed = tpAfterSubmit.completed ∧
    TP2stop (TP2stop tpAfterSubmit) = TP2stop tpAfterSubmit ∧
    (∀ s : TP2State, s.stop = true → TP2stop s = s) :=
  stop_idempotent_and_drains tp1Busy tpAfterSubmit rfl rfl (by decide)

/-- Claim C8: a task whose computation raises an error does not disturb the
pool.  The worker that served it still performs `assigned -= 1` and
`completed += 1` and pops the task from the queue; the error is captured
into the task's result handle exactly as raised; the resulting pool state —
and hence the worker's decision whether to keep serving — is identical to
that after a successful task, so the failure never terminates the worker
thread. -/
theorem failing_task_keeps_worker_and_counters (s : TP1State) (f : TaskFn)
    (e : String) (t : Nat) (rest : List Nat) (hq : s.queue = t :: rest) :
    (TP1workerServeOne s f).1.assigned = s.assigned ∧
    (TP1workerServeOne s f).1.completed = s.completed + 1 ∧
    (TP1workerServeOne s f).1.queue = rest ∧
    (TP1workerServeOne s (fun _ => Except.error e)).2
      = some (Except.error e) ∧
    (TP1workerServeOne s (fun _ => Except.error e)).1
      = (TP1workerServeOne s f).1 ∧
    TP1workerExits (TP1workerServeOne s (fun _ => Except.error e)).1
      = TP1workerExits (TP1workerServeOne s f).1 := by
  simp [TP1workerServeOne, hq, packagedInvoke]

/-- Witness for C8: serving the single queued task of `tp1Busy`. -/
theorem failing_task_keeps_worker_and_counters_inst :
    (TP1workerServeOne tp1Busy (fun _ => Except.ok 0)).1.assigned
      = tp1Busy.assigned ∧
    (TP1workerServeOne tp1Busy (fun _ => Except.ok 0)).1.completed
      = tp1Busy.completed + 1 ∧
    (TP1workerServeOne tp1Busy (fun _ => Except.ok 0)).1.queue = [] ∧
    (TP1workerServeOne tp1Busy (fun _ => Except.error "boom")).2
      = some (Except.error "boom") ∧
    (TP1workerServeOne tp1Busy (fun _ => Except.error "boom")).1
      = (TP1workerServeOne tp1Busy (fun _ => Except.ok 0)).1 ∧
    TP1workerExits (TP1workerServeOne tp1Busy
        (fun _ => Except.error "boom")).1
      = TP1workerExits (TP1workerServeOne tp1Busy
        (fun _ => Except.ok 0)).1 :=
  failing_task_keeps_worker_and_counters tp1Busy (fun _ => Except.ok 0)
    "boom" 5 [] rfl

/-- Counterexample to Claim C1 as stated: in the `part_002` revision the
reachable state `tpAssignedOne` (fresh pool, one task submitted, popped by a
worker and still executing) is not stopping and satisfies `sync`'s wake-up
predicate `!stats.enqueued` even though one task is still assigned — so
`sync()` can return from a non-quiescent pool. -/
theorem sync_returns_nonquiescent :
    Reach tpAssignedOne ∧
    tpAssignedOne.stop = false ∧
    TP2syncReturns tpAssignedOne = true ∧
    tpAssignedOne.assigned ≠ 0 := by
  refine ⟨?_, rfl, rfl, by decide⟩
  have h1 : TPStep tpInit tpAfterSubmit := TPStep.submit tpInit 7 rfl
  have h2 : TPStep tpAfterSubmit tpAssignedOne :=
    TPStep.assign tpAfterSubmit 7 [] rfl
  exact Reach.step (Reach.step Reach.init h1) h2

/-- Claim C1 (amended): `wait()` of `include/threadpool.hpp` does return
only at quiescence — on a non-halted pool its predicate forces the queue
empty and `assigned == 0` simultaneously.  The `part_002` `sync()` waits
only for `enqueued == 0`, which (in every reachable state) guarantees an
empty queue but says nothing about assigned tasks. -/
theorem wait_and_sync_return_conditions :
    (∀ s : TP1State, s.halt = false → TP1waitReturns s = true →
        s.queue = [] ∧ s.assigned = 0) ∧
    (∀ s : TP2State, Reach s → TP2syncReturns s = true → s.queue = []) := by
  constructor
  · intro s h hw
    simp [TP1waitReturns, h] at hw
    exact hw
  · intro s hr hs
    have h2 := (reach_inv hr).2
    simp [TP2syncReturns] at hs
    rw [hs] at h2
    exact (List.length_eq_zero.mp h2.symm)

/-- Witness for C1 (amended): the quiescent pool `tp1Quiescent` satisfies
`wait`'s return condition and is indeed quiescent; the fresh `part_002` pool
satisfies `sync`'s return condition with an empty queue. -/
theorem wait_and_sync_return_conditions_inst :
    (tp1Quiescent.queue = [] ∧ tp1Quiescent.assigned = 0) ∧
    tpInit.queue = [] :=
  ⟨wait_and_sync_return_conditions.1 tp1Quiescent rfl (by decide),
   wait_and_sync_return_conditions.2 tpInit Reach.init (by decide)⟩

/-- Counterexample to Claim C3 as stated: on the fresh
`include/threadpool.hpp` pool, `resize(2)` (with `2 > 0` running workers)
spawns two detached threads but observes zero readiness signals before
returning, and the running worker count is still `0` when `resize` returns —
the new capacity is not yet live. -/
theorem resize_v1_no_readiness_before_return :
    tp1Fresh.workerCount < 2 ∧
    countSpawned (TP1resize tp1Fresh 2).2 = 2 ∧
    countReady (TP1resize tp1Fresh 2).2 = 0 ∧
    (TP1resize tp1Fresh 2).1.workerCount = 0 := by
  decide

/-- Claim C3 (amended): on a non-stopping pool with fewer than `n` running
workers, `resize(n)` spawns exactly `n - running_workers` new workers in
both revisions; only in the `part_002` revision does every newly spawned
worker signal readiness before `resize` returns (one readiness signal per
spawn), leaving `worker_count = n` on return.  The `threadpool.hpp`
revision returns without observing any readiness signal. -/
theorem resize_spawn_counts_and_readiness (s1 : TP1State) (s2 : TP2State)
    (n : Nat) (h1 : s1.halt = false) (h2 : s2.stop = false)
    (hlt : s2.workerCount < n) :
    countSpawned (TP1resize s1 n).2 = n - s1.workerCount ∧
    countReady (TP1resize s1 n).2 = 0 ∧
    countSpawned (TP2resize s2 n).2 = n - s2.workerCount ∧
    countReady (TP2resize s2 n).2 = countSpawned (TP2resize s2 n).2 ∧
    (TP2resize s2 n).1.workerCount = n := by
  have hr := replicate_spawned_counts (n - s1.workerCount)
  have hs := spawnReadySeq_counts (n - s2.workerCount)
  refine ⟨?_, ?_, ?_, ?_, ?_⟩
  all_goals simp [TP1resize, TP2resize, h1, h2, hr.1, hr.2, hs.1, hs.2]
  all_goals omega

/-- Witness for C3 (amended): growing the fresh pools to two workers. -/
theorem resize_spawn_counts_and_readiness_inst :
    countSpawned (TP1resize tp1Fresh 2).2 = 2 - tp1Fresh.workerCount ∧
    countReady (TP1resize tp1Fresh 2).2 = 0 ∧
    countSpawned (TP2resize tpInit 2).2 = 2 - tpInit.workerCount ∧
    countReady (TP2resize tpInit 2).2
      = countSpawned (TP2resize tpInit 2).2 ∧
    (TP2resize tpInit 2).1.workerCount = 2 :=
  resize_spawn_counts_and_readiness tp1Fresh tpInit 2 rfl rfl (by decide)

/-- Counterexample to Claim C5 as stated: with neither `TP_THROW` nor
`TP_DEBUG` defined (the default build), a teardown at which
`received != assigned + completed + aborted` — here one received task and no
completion — takes the empty `LOG(...)` branch of the destructor's check and
passes silently. -/
theorem teardown_violation_silent_by_default :
    (1 : Nat) ≠ 0 + 0 + 0 ∧
    teardownCheck false false 1 0 0 0 = TeardownOutcome.silent := by
  decide

/-- Claim C5 (amended): in every reachable quiescent state (queue empty and
no task assigned) the statistics satisfy `received = completed + aborted`
and `assigned = 0`, for every sequence of submit/stop/worker steps; a
teardown violation of the counter reconciliation is detected (throw or log)
whenever `TP_THROW` or `TP_DEBUG` is enabled — but only then. -/
theorem quiescent_stats_and_guarded_check :
    (∀ s : TP2State, Reach s → s.queue = [] → s.assigned = 0 →
        s.received = s.completed + s.aborted ∧ s.assigned = 0) ∧
    (∀ (d : Bool) (r a c ab : Nat),
        teardownCheck true d r a c ab ≠ TeardownOutcome.silent ∧
        teardownCheck false true r a c ab ≠ TeardownOutcome.silent) := by
  constructor
  · intro s hr hq ha
    obtain ⟨h1, h2⟩ := reach_inv hr
    rw [hq] at h2
    simp at h2
    exact ⟨by omega, ha⟩
  · intro d r a c ab
    constructor <;> · unfold teardownCheck; split <;> simp
/-- Witness for C5 (amended): the fresh pool is quiescent and reconciled,
and a concrete violated check under `TP_THROW` is not silent. -/
theorem quiescent_stats_and_guarded_check_inst :
    (tpInit.received = tpInit.completed + tpInit.aborted ∧
      tpInit.assigned = 0) ∧
    teardownCheck true false 1 0 0 0 ≠ TeardownOutcome.silent :=
  ⟨quiescent_stats_and_guarded_check.1 tpInit Reach.init rfl rfl,
   (quiescent_stats_and_guarded_check.2 false 1 0 0 0).1⟩

/-- Counterexample to Claim C6 as stated: in the `part_003` revision (the
only one accepting asynchronous fragments), a record with fragments
`["A", async B, "C"]`, empty prefix and suffix and infix `"-"` flushes
`"-A-B-C\n"`, not `"A-B-C"` — the infix also precedes the first fragment and
a newline follows the suffix. -/
theorem record_bytes_differ_from_claim :
    dlog3Writes "" "-" "" [Frag.lit "A", Frag.fromAsync "B", Frag.lit "C"]
      ≠ ["" ++ "A" ++ "-" ++ "B" ++ "-" ++ "C" ++ ""] := by
  decide

/-- Claim C6 (amended): a `part_003` record with fragments
`[A, async B, C]` that passes the severity filter flushes exactly
`prefix ++ infix ++ A ++ infix ++ B ++ infix ++ C ++ suffix ++ "\n"` — every
fragment is preceded by the infix — as one single write, with the fragments
in the order they were appended; the bytes coincide with those of a record
whose middle fragment was already resolved, so the async fragment's
resolution time cannot affect the output. -/
theorem record_flush_bytes_order (pre mid suf a b c : String) :
    dlog3Writes pre mid suf [Frag.lit a, Frag.fromAsync b, Frag.lit c]
      = [pre ++ mid ++ a ++ mid ++ b ++ mid ++ c ++ suf ++ "\n"] ∧
    (dlog3Writes pre mid suf
        [Frag.lit a, Frag.fromAsync b, Frag.lit c]).length = 1 ∧
    dlog3Writes pre mid suf [Frag.lit a, Frag.fromAsync b, Frag.lit c]
      = dlog3Writes pre mid suf [Frag.lit a, Frag.lit b, Frag.lit c] := by
  refine ⟨?_, rfl, ?_⟩ <;>
    simp [dlog3Writes, dlog3Bytes, runSteps, dlog3Steps, fragStep,
      String.append_assoc]

/-- Counterexample to Claim C7 as stated: a record constructed with severity
level `0` while the process-wide threshold is `1` has severity strictly
below the threshold, yet it produces output — the `out` filter in every
`dlog` constructor treats level `0` as "always print". -/
theorem level_zero_record_prints :
    0 < 1 ∧
    dlogRecordBytes 0 1 "P" " " "S" ["x"] ≠ "" ∧
    dlogFlushWrites 0 1 "P" " " "S" ["x"] ≠ [] := by
  decide

/-- Claim C7 (amended): a record whose severity level is non-zero and
strictly below the process-wide threshold produces zero bytes — no prefix,
fragment or suffix is appended to its buffer and nothing is flushed to the
destination stream.  (Level `0` is a sentinel that always prints.) -/
theorem below_threshold_record_silent (lvl thr : Nat) (pre mid suf : String)
    (frags : List String) (h0 : lvl ≠ 0) (hlt : lvl < thr) :
    dlogRecordBytes lvl thr pre mid suf frags = "" ∧
    dlogFlushWrites lvl thr pre mid suf frags = [] := by
  have hout : dlogOut lvl thr = false := by
    simp [dlogOut]
    omega
  simp [dlogRecordBytes, dlogFlushWrites, hout]

/-- Witness for C7 (amended): a level-1 record under threshold 2 is entirely
silent. -/
theorem below_threshold_record_silent_inst :
    dlogRecordBytes 1 2 "P" " " "S" ["x"] = "" ∧
    dlogFlushWrites 1 2 "P" " " "S" ["x"] = [] :=
  below_threshold_record_silent 1 2 "P" " " "S" ["x"] (by decide) (by decide)

end Dlog
